import Mathlib

/-!
Shallow embedding of `src/src/onedrive_sync.c` (the whole program is one
`main` function) and proofs of the specified properties.

The program's inputs are the value of the `USERPROFILE` environment
variable and the behaviour of the file system (whether `fopen(dest, "w")`
succeeds, and whether the subsequent `fprintf`/`fclose` succeed).  We
model a run as a pure function of a `World` that records those inputs,
producing an exit status and an ordered trace of observable events
(stdout lines, stderr lines, open/write/close operations).  `snprintf`
with a 512-byte buffer is modelled as truncation of the formatted string
to its first 511 characters.
-/

namespace OneDriveSync

/-- The fixed relative suffix appended to the home directory
(format string of the `snprintf` call, line 17 of `onedrive_sync.c`). -/
def pathSuffix : String := "\\OneDrive\\DatRainCacheTest.txt"

/-- The single line written to the destination file (line 26). -/
def syncLine : String := "This is a DatRain sync test.\n"

/-- Diagnostic printed to stderr when `USERPROFILE` is absent (line 13). -/
def msgNoUserprofile : String := "USERPROFILE not found. Are you on Windows?\n"

/-- Diagnostic printed to stderr when `fopen` fails (line 23). -/
def msgOpenFailed : String := "Failed to open file in OneDrive folder.\n"

/-- The stdout progress line announcing the destination path (line 19). -/
def msgCopyLine (p : String) : String := "Copying file to: " ++ p ++ "\n"

/-- The stdout success line (line 28). -/
def msgCreated : String := "File created in OneDrive folder. It should sync automatically.\n"

/-- `snprintf(dest, sizeof(dest), "%s\\OneDrive\\DatRainCacheTest.txt", onedrive_path)`
with `sizeof(dest) = 512`: the formatted string is stored truncated to at
most 511 characters (plus the terminating NUL, which we do not model). -/
def destPath (home : String) : String := ⟨(home ++ pathSuffix).data.take 511⟩

/-- One observable event of a run: a line printed to stdout, a line
printed to stderr, or a file-system operation on the destination file. -/
inductive Event where
  | out (s : String)
  | err (s : String)
  | openW (path : String)
  | write (path : String) (content : String)
  | close (path : String)
  deriving DecidableEq

/-- The inputs of a run: the value of `getenv("USERPROFILE")` (`none`
models a NULL return), whether `fopen(p, "w")` succeeds for a given path,
and whether the subsequent `fprintf` and `fclose` succeed.  The C code
never inspects the results of `fprintf`/`fclose`. -/
structure World where
  userprofile : Option String
  openOk : String → Bool
  writeOk : Bool
  closeOk : Bool

/-- The outcome of a run: the process exit status and the ordered trace
of observable events. -/
structure RunResult where
  exit : Nat
  events : List Event
  deriving DecidableEq

/-- The `main` function of `onedrive_sync.c`, as a function of the run's
inputs.  Follows the source line by line: NULL check on the environment
variable, `snprintf` into the 512-byte buffer, progress line, `fopen`,
NULL check on the stream, `fprintf`, `fclose`, success line.  A failed
`fprintf` leaves the file truncated-to-empty by the `"w"` open. -/
def run (w : World) : RunResult :=
  match w.userprofile with
  | none => ⟨1, [Event.err msgNoUserprofile]⟩
  | some home =>
    let dest := destPath home
    if w.openOk dest then
      ⟨0, [Event.out (msgCopyLine dest), Event.openW dest,
           Event.write dest (if w.writeOk then syncLine else ""),
           Event.close dest, Event.out msgCreated]⟩
    else
      ⟨1, [Event.out (msgCopyLine dest), Event.openW dest,
           Event.err msgOpenFailed]⟩

/-- The effect of one run on the file system, modelled as a map from
paths to file contents.  Only a successful `fopen(dest, "w")` changes the
file system: it truncates the file and the `fprintf` then writes the
fixed line (or nothing, if the write fails). -/
def runFS (w : World) (fs : String → Option String) : String → Option String :=
  match w.userprofile with
  | none => fs
  | some home =>
    if w.openOk (destPath home) then
      fun p => if p = destPath home
               then some (if w.writeOk then syncLine else "")
               else fs p
    else fs

/-- The lines a run prints to standard output, in order. -/
def RunResult.stdout (r : RunResult) : List String :=
  r.events.filterMap fun e => match e with
    | Event.out s => some s
    | _ => none

/-- The lines a run prints to standard error, in order. -/
def RunResult.stderrLines (r : RunResult) : List String :=
  r.events.filterMap fun e => match e with
    | Event.err s => some s
    | _ => none

/-- The paths a run passes to `fopen`, in order. -/
def RunResult.opens (r : RunResult) : List String :=
  r.events.filterMap fun e => match e with
    | Event.openW p => some p
    | _ => none

/-- The (path, content) pairs a run writes, in order. -/
def RunResult.writes (r : RunResult) : List (String × String) :=
  r.events.filterMap fun e => match e with
    | Event.write p c => some (p, c)
    | _ => none

/-- A fully healthy world with a short home directory, used as a witness
environment. -/
def wGood : World := ⟨some "C:\\Users\\bob", fun _ => true, true, true⟩

/-- A world whose `USERPROFILE` is set but empty, and where every open
succeeds. -/
def wEmpty : World := ⟨some "", fun _ => true, true, true⟩

/-- A world whose `USERPROFILE` is set but where every open fails
(e.g. the OneDrive subfolder is missing). -/
def wNoDir : World := ⟨some "C:\\Users\\bob", fun _ => false, true, true⟩

/-- A world whose `USERPROFILE` is unset. -/
def wUnset : World := ⟨none, fun _ => true, true, true⟩

/-- When the formatted path fits in the 512-byte buffer, `snprintf` does
not truncate: the destination is exactly `home ++ pathSuffix`. -/
theorem destPath_of_short (home : String) (h : home.length + 30 ≤ 511) :
    destPath home = home ++ pathSuffix := by
  have hsuf : pathSuffix.length = 30 := by decide
  have hlen : (home ++ pathSuffix).data.length ≤ 511 := by
    rw [String.data_append, List.length_append, String.length_data,
      String.length_data, hsuf]
    omega
  exact String.ext (List.take_of_length_le hlen)

/-- Claim C1: with `USERPROFILE` set to a home directory (fitting the
512-byte buffer) whose OneDrive subfolder exists and is writable —
modelled as the open and the write succeeding — the run creates the file
at `<home>\OneDrive\DatRainCacheTest.txt` with content exactly the fixed
line followed by a newline, and exits with status 0. -/
theorem run_success_writes_marker (w : World) (home : String)
    (hup : w.userprofile = some home)
    (hlen : home.length + 30 ≤ 511)
    (hopen : w.openOk (home ++ pathSuffix) = true)
    (hwr : w.writeOk = true) :
    (run w).exit = 0 ∧
    (run w).writes = [(home ++ pathSuffix, syncLine)] ∧
    ∀ fs, runFS w fs (home ++ pathSuffix) = some syncLine := by
  have hd := destPath_of_short home hlen
  simp [run, runFS, hup, hd, hopen, hwr, RunResult.writes]

theorem run_success_writes_marker_witness :
    (run wGood).exit = 0 ∧
    (run wGood).writes = [("C:\\Users\\bob" ++ pathSuffix, syncLine)] ∧
    ∀ fs, runFS wGood fs ("C:\\Users\\bob" ++ pathSuffix) = some syncLine :=
  run_success_writes_marker wGood "C:\\Users\\bob" rfl (by decide) rfl rfl

/-- Claim C2: whenever the open of the destination file fails, the run
prints the open-failure diagnostic to stderr, exits with status 1, and
writes nothing to the file system. -/
theorem run_open_fail (w : World) (home : String)
    (hup : w.userprofile = some home)
    (hopen : w.openOk (destPath home) = false) :
    (run w).exit = 1 ∧
    (run w).stderrLines = [msgOpenFailed] ∧
    (run w).writes = [] ∧
    ∀ fs, runFS w fs = fs := by
  simp [run, runFS, hup, hopen, RunResult.stderrLines, RunResult.writes]

theorem run_open_fail_witness :
    (run wNoDir).exit = 1 ∧
    (run wNoDir).stderrLines = [msgOpenFailed] ∧
    (run wNoDir).writes = [] ∧
    ∀ fs, runFS wNoDir fs = fs :=
  run_open_fail wNoDir "C:\\Users\\bob" rfl rfl

/-- Claim C3: with `USERPROFILE` unset, the run performs no file-system
write (indeed no open at all), prints a diagnostic to stderr, and exits
with status 1. -/
theorem run_unset_no_write (w : World) (hup : w.userprofile = none) :
    (run w).exit = 1 ∧
    (run w).stderrLines = [msgNoUserprofile] ∧
    (run w).writes = [] ∧
    (run w).opens = [] ∧
    ∀ fs, runFS w fs = fs := by
  simp [run, runFS, hup, RunResult.stderrLines, RunResult.writes,
    RunResult.opens]

theorem run_unset_no_write_witness :
    (run wUnset).exit = 1 ∧
    (run wUnset).stderrLines = [msgNoUserprofile] ∧
    (run wUnset).writes = [] ∧
    (run wUnset).opens = [] ∧
    ∀ fs, runFS wUnset fs = fs :=
  run_unset_no_write wUnset rfl

/-- Claim C4 is false of the code: `main` only checks `getenv` for NULL,
so a set-but-empty `USERPROFILE` is not treated as a configuration
error.  In the world `wEmpty` (empty value, permissive file system) the
run exits 0, prints nothing to stderr, and attempts and completes a file
write at `\OneDrive\DatRainCacheTest.txt`. -/
theorem run_empty_value_cex :
    (run wEmpty).exit = 0 ∧
    (run wEmpty).stderrLines = [] ∧
    (run wEmpty).opens = ["\\OneDrive\\DatRainCacheTest.txt"] ∧
    (run wEmpty).writes ≠ [] := by decide

/-- Claim C4 amended: a set-but-empty `USERPROFILE` is treated like any
other value: the run builds the path `\OneDrive\DatRainCacheTest.txt`
(empty home plus fixed suffix), attempts to open it, and exits 0 exactly
when that open succeeds; no configuration error is reported. -/
theorem run_empty_value_amended (w : World)
    (hup : w.userprofile = some "") :
    (run w).opens = ["\\OneDrive\\DatRainCacheTest.txt"] ∧
    ((run w).exit = 0 ↔ w.openOk "\\OneDrive\\DatRainCacheTest.txt" = true) := by
  have hd : destPath "" = "\\OneDrive\\DatRainCacheTest.txt" := by decide
  cases h : w.openOk "\\OneDrive\\DatRainCacheTest.txt" <;>
    simp [run, hup, hd, h, RunResult.opens]

theorem run_empty_value_amended_witness :
    (run wEmpty).opens = ["\\OneDrive\\DatRainCacheTest.txt"] ∧
    ((run wEmpty).exit = 0 ↔ wEmpty.openOk "\\OneDrive\\DatRainCacheTest.txt" = true) :=
  run_empty_value_amended wEmpty rfl

/-- Whenever `USERPROFILE` is set, the run passes exactly one path to
`fopen`: the constructed destination path. -/
theorem opens_of_some (w : World) (home : String)
    (hup : w.userprofile = some home) :
    (run w).opens = [destPath home] := by
  cases h : w.openOk (destPath home) <;>
    simp [run, hup, h, RunResult.opens]

/-- Claim C5: for every set, non-empty home value the destination path
embedded in the stdout progress line is character for character the path
passed to `fopen`. -/
theorem printed_path_matches_opened (w : World) (home : String)
    (hup : w.userprofile = some home) (_hne : home ≠ "") :
    ∃ p, (run w).stdout.head? = some ("Copying file to: " ++ p ++ "\n") ∧
      (run w).opens = [p] := by
  refine ⟨destPath home, ?_, opens_of_some w home hup⟩
  cases h : w.openOk (destPath home) <;>
    simp [run, hup, h, RunResult.stdout, msgCopyLine]

theorem printed_path_matches_opened_witness :
    ∃ p, (run wGood).stdout.head? = some ("Copying file to: " ++ p ++ "\n") ∧
      (run wGood).opens = [p] :=
  printed_path_matches_opened wGood "C:\\Users\\bob" rfl (by decide)

/-- Claim C6: running twice in the same world is idempotent: the second
run truncates and rewrites the destination file, leaving the file system
exactly as the first run left it. -/
theorem second_run_identical (w : World) (fs : String → Option String) :
    runFS w (runFS w fs) = runFS w fs := by
  funext p
  cases hup : w.userprofile with
  | none => simp [runFS, hup]
  | some home =>
    cases h : w.openOk (destPath home) with
    | false => simp [runFS, hup, h]
    | true => by_cases hp : p = destPath home <;> simp [runFS, hup, h, hp]

/-- The stdout progress line starts with `C`, so it can never equal
either of the two stderr diagnostics. -/
theorem msgCopyLine_ne_diags (p : String) :
    msgCopyLine p ≠ msgNoUserprofile ∧ msgCopyLine p ≠ msgOpenFailed := by
  have hc : (msgCopyLine p).data.head? = some 'C' := by
    have h1 : msgCopyLine p = ("Copying file to: " ++ p) ++ "\n" := rfl
    have h2 : "Copying file to: ".data = 'C' :: "opying file to: ".data := by
      decide
    rw [h1, String.data_append, String.data_append, h2, List.cons_append,
      List.cons_append]
    rfl
  refine ⟨fun h => ?_, fun h => ?_⟩
  · rw [h] at hc; exact absurd hc (by decide)
  · rw [h] at hc; exact absurd hc (by decide)

/-- Claim C7: in every run that reaches the open, the stdout progress
line carrying the destination path occurs strictly earlier in the trace
than the open of that path; and no stdout line is ever one of the two
error diagnostics (diagnostics go only to stderr). -/
theorem stream_discipline (w : World) :
    (∀ p, Event.openW p ∈ (run w).events →
      ∃ i j : Nat, i < j ∧
        (run w).events[i]? = some (Event.out (msgCopyLine p)) ∧
        (run w).events[j]? = some (Event.openW p)) ∧
    (∀ s, Event.out s ∈ (run w).events →
      s ≠ msgNoUserprofile ∧ s ≠ msgOpenFailed) := by
  constructor
  · intro p hp
    cases hup : w.userprofile with
    | none => simp [run, hup] at hp
    | some home =>
      cases h : w.openOk (destPath home) with
      | false =>
        simp [run, hup, h] at hp
        subst hp
        refine ⟨0, 1, by omega, ?_, ?_⟩ <;> simp [run, hup, h]
      | true =>
        simp [run, hup, h] at hp
        subst hp
        refine ⟨0, 1, by omega, ?_, ?_⟩ <;> simp [run, hup, h]
  · intro s hs
    cases hup : w.userprofile with
    | none => simp [run, hup] at hs
    | some home =>
      cases h : w.openOk (destPath home) with
      | false =>
        simp [run, hup, h] at hs
        subst hs
        exact msgCopyLine_ne_diags (destPath home)
      | true =>
        simp [run, hup, h] at hs
        rcases hs with rfl | rfl
        · exact msgCopyLine_ne_diags (destPath home)
        · exact ⟨by decide, by decide⟩

theorem stream_discipline_witness :
    ∃ i j : Nat, i < j ∧
      (run wGood).events[i]? =
        some (Event.out (msgCopyLine (destPath "C:\\Users\\bob"))) ∧
      (run wGood).events[j]? =
        some (Event.openW (destPath "C:\\Users\\bob")) :=
  (stream_discipline wGood).1 (destPath "C:\\Users\\bob") (by decide)

/-- Claim C8: whenever the open of the destination succeeds the run
exits 0 and prints the success message, for every outcome of the write
and the close — their results are never inspected. -/
theorem success_ignores_write_close (w : World) (home : String)
    (b c : Bool)
    (hup : w.userprofile = some home)
    (hopen : w.openOk (destPath home) = true) :
    (run ⟨w.userprofile, w.openOk, b, c⟩).exit = 0 ∧
    msgCreated ∈ (run ⟨w.userprofile, w.openOk, b, c⟩).stdout := by
  simp [run, hup, hopen, RunResult.stdout]

theorem success_ignores_write_close_witness :
    (run ⟨wGood.userprofile, wGood.openOk, false, false⟩).exit = 0 ∧
    msgCreated ∈ (run ⟨wGood.userprofile, wGood.openOk, false, false⟩).stdout :=
  success_ignores_write_close wGood "C:\\Users\\bob" false false rfl rfl

/-- A home-directory value long enough that the formatted path exceeds
the 512-byte buffer. -/
def longHome : String := ⟨List.replicate 600 'a'⟩

/-- A healthy world whose home directory is `longHome`. -/
def wLong : World := ⟨some longHome, fun _ => true, true, true⟩

/-- Claim C9: the path construction never overflows the 512-byte buffer:
for every home value the stored destination is the formatted string
truncated to at most 511 characters, and the run silently proceeds with
the truncated path — it opens exactly that path, and fails (status 1)
only when that open fails, never because of truncation. -/
theorem destPath_no_overflow (home : String) :
    (destPath home).length ≤ 511 ∧
    destPath home = (⟨(home ++ pathSuffix).data.take 511⟩ : String) ∧
    ∀ w : World, w.userprofile = some home →
      (run w).opens = [destPath home] ∧
      ((run w).exit = 1 ↔ w.openOk (destPath home) = false) := by
  refine ⟨?_, rfl, ?_⟩
  · show (String.mk ((home ++ pathSuffix).data.take 511)).length ≤ 511
    rw [String.length_mk]
    exact List.length_take_le 511 (home ++ pathSuffix).data
  · intro w hup
    refine ⟨opens_of_some w home hup, ?_⟩
    cases h : w.openOk (destPath home) <;> simp [run, hup, h]

theorem destPath_no_overflow_witness :
    (destPath longHome).length ≤ 511 ∧
    destPath longHome = (⟨(longHome ++ pathSuffix).data.take 511⟩ : String) ∧
    ((run wLong).opens = [destPath longHome] ∧
      ((run wLong).exit = 1 ↔ wLong.openOk (destPath longHome) = false)) :=
  ⟨(destPath_no_overflow longHome).1, (destPath_no_overflow longHome).2.1,
    (destPath_no_overflow longHome).2.2 wLong rfl⟩

/-- A world identical to `wGood` except that the close fails. -/
def wGoodCloseFails : World := ⟨some "C:\\Users\\bob", fun _ => true, true, false⟩

/-- Claim C10: the program is deterministic in its inputs: the path it
opens depends only on the environment variable, and two runs that agree
on the environment variable and on the file system's responses produce
identical traces (hence identical stdout, stderr, writes), identical
exit statuses, and identical file-system effects. -/
theorem run_deterministic (w1 w2 : World)
    (hup : w1.userprofile = w2.userprofile) :
    (run w1).opens = (run w2).opens ∧
    (w1.openOk = w2.openOk → w1.writeOk = w2.writeOk →
      run w1 = run w2 ∧ ∀ fs, runFS w1 fs = runFS w2 fs) := by
  obtain ⟨u1, o1, wr1, c1⟩ := w1
  obtain ⟨u2, o2, wr2, c2⟩ := w2
  have hu : u1 = u2 := hup
  subst hu
  constructor
  · cases hu1 : u1 with
    | none => simp [run, hu1, RunResult.opens]
    | some home =>
      rw [opens_of_some ⟨some home, o1, wr1, c1⟩ home rfl,
        opens_of_some ⟨some home, o2, wr2, c2⟩ home rfl]
  · intro ho hw
    have ho2 : o1 = o2 := ho
    have hw2 : wr1 = wr2 := hw
    subst ho2
    subst hw2
    exact ⟨rfl, fun fs => rfl⟩

theorem run_deterministic_witness :
    (run wGood).opens = (run wGoodCloseFails).opens ∧
    (wGood.openOk = wGoodCloseFails.openOk →
      wGood.writeOk = wGoodCloseFails.writeOk →
      run wGood = run wGoodCloseFails ∧
      ∀ fs, runFS wGood fs = runFS wGoodCloseFails fs) :=
  run_deterministic wGood wGoodCloseFails rfl

end OneDriveSync
